import Mathlib

/-!
Shallow embedding of the market-data reconciliation pipeline of the
antique-tracker backend (`src/backend/app/services/ebay.py` and
`src/backend/app/api/ai_identifier.py`).

Conventions:
* Python `float` money amounts are modelled as `ℚ` (all the arithmetic the
  claims exercise — sums, divisions by small integers, comparisons against
  decimal literals, decimal rounding — is exact at the inputs considered).
* Python's built-in `round(x, n)` (round-half-to-even) is modelled by
  `pyRound`.
* Python `str.split(sep)` (all occurrences, non-overlapping, left to right)
  is modelled by `pySplit`; `sep in s` for a non-empty `sep` is equivalent to
  `1 < (pySplit sep s).length`.
* Calls to external HTTP services are modelled by explicit outcome values /
  oracle functions; `json.loads` of a refinement payload is modelled by a
  parser oracle `String → Option RefinedPayload` (the library parser is not
  repository code; the claims under study only depend on whether it fails).
* Python exceptions are modelled with `Except`.
-/

namespace AntiqueTracker

/-! ## Python `round` (banker's rounding) on rationals -/

/-- Python's `round` to an integer: nearest integer, ties to even. -/
def pyRoundInt (q : ℚ) : ℤ :=
  if q - (⌊q⌋ : ℚ) < 1/2 then ⌊q⌋
  else if 1/2 < q - (⌊q⌋ : ℚ) then ⌊q⌋ + 1
  else if ⌊q⌋ % 2 = 0 then ⌊q⌋ else ⌊q⌋ + 1

/-- Python's `round(q, n)`. -/
def pyRound (q : ℚ) (n : ℕ) : ℚ :=
  (pyRoundInt (q * (10 : ℚ) ^ n) : ℚ) / (10 : ℚ) ^ n

theorem pyRoundInt_cases (q : ℚ) : pyRoundInt q = ⌊q⌋ ∨ pyRoundInt q = ⌊q⌋ + 1 := by
  unfold pyRoundInt
  split_ifs <;> simp

theorem floor_le_pyRoundInt (q : ℚ) : ⌊q⌋ ≤ pyRoundInt q := by
  rcases pyRoundInt_cases q with h | h <;> omega

theorem pyRoundInt_le_floor_add_one (q : ℚ) : pyRoundInt q ≤ ⌊q⌋ + 1 := by
  rcases pyRoundInt_cases q with h | h <;> omega

theorem pyRoundInt_mono {q r : ℚ} (h : q ≤ r) : pyRoundInt q ≤ pyRoundInt r := by
  rcases lt_or_eq_of_le (Int.floor_le_floor h) with hf | hf
  · calc pyRoundInt q ≤ ⌊q⌋ + 1 := pyRoundInt_le_floor_add_one q
    _ ≤ ⌊r⌋ := by omega
    _ ≤ pyRoundInt r := floor_le_pyRoundInt r
  · have hfr : ((⌊q⌋ : ℚ)) = ((⌊r⌋ : ℚ)) := by rw [hf]
    have hfrac : q - (⌊q⌋ : ℚ) ≤ r - (⌊r⌋ : ℚ) := by rw [← hfr]; linarith
    unfold pyRoundInt
    rw [hfr] at hfrac
    rw [hf]
    split_ifs with h1 h2 h3 h4 h5 h6 h7 h8 h9 <;> first
      | omega
      | linarith

/-- The rounding error of `pyRoundInt` is at most `1/2`. -/
theorem abs_pyRoundInt_sub_le (q : ℚ) : |(pyRoundInt q : ℚ) - q| ≤ 1/2 := by
  have h0 : (⌊q⌋ : ℚ) ≤ q := Int.floor_le q
  have h1 : q < (⌊q⌋ : ℚ) + 1 := Int.lt_floor_add_one q
  unfold pyRoundInt
  split_ifs with hc1 hc2 hc3 <;>
    · rw [abs_le]
      constructor <;> push_cast <;> linarith

theorem pyRound_mono {q r : ℚ} (n : ℕ) (h : q ≤ r) : pyRound q n ≤ pyRound r n := by
  unfold pyRound
  have hp : (0 : ℚ) < (10 : ℚ) ^ n := by positivity
  have h2 := pyRoundInt_mono (mul_le_mul_of_nonneg_right h (le_of_lt hp))
  have h3 : ((pyRoundInt (q * (10 : ℚ) ^ n) : ℚ)) ≤ ((pyRoundInt (r * (10 : ℚ) ^ n) : ℚ)) := by
    exact_mod_cast h2
  exact div_le_div_of_nonneg_right h3 hp.le

/-- The rounding error of `pyRound · n` is at most half of `10⁻ⁿ`. -/
theorem abs_pyRound_sub_le (q : ℚ) (n : ℕ) :
    |pyRound q n - q| ≤ 1 / (2 * (10 : ℚ) ^ n) := by
  unfold pyRound
  have hp : (0 : ℚ) < (10 : ℚ) ^ n := by positivity
  have herr := abs_pyRoundInt_sub_le (q * (10 : ℚ) ^ n)
  have hne : ((10 : ℚ) ^ n) ≠ 0 := ne_of_gt hp
  have hrw : (pyRoundInt (q * (10 : ℚ) ^ n) : ℚ) / (10 : ℚ) ^ n - q
      = ((pyRoundInt (q * (10 : ℚ) ^ n) : ℚ) - q * (10 : ℚ) ^ n) / (10 : ℚ) ^ n := by
    field_simp
    ring
  rw [hrw, abs_div, abs_of_pos hp, div_le_div_iff hp (by positivity)]
  calc |(pyRoundInt (q * (10 : ℚ) ^ n) : ℚ) - q * (10 : ℚ) ^ n| * (2 * (10 : ℚ) ^ n)
      ≤ (1/2) * (2 * (10 : ℚ) ^ n) := by
        apply mul_le_mul_of_nonneg_right herr; positivity
    _ = 1 * (10 : ℚ) ^ n := by ring

theorem pyRound_zero (n : ℕ) : pyRound 0 n = 0 := by
  unfold pyRound pyRoundInt
  norm_num

/-! ## Python `str.split` -/

/-- One pass of Python's `str.split(sep)` over the character list, with fuel
(the fuel is always sufficient: each step consumes at least one character or
ends the recursion). -/
def pySplitAux (sep : List Char) : ℕ → List Char → List Char → List (List Char)
  | 0, s, acc => [acc.reverse ++ s]
  | fuel + 1, s, acc =>
    if sep ≠ [] ∧ List.isPrefixOf sep s then
      acc.reverse :: pySplitAux sep fuel (s.drop sep.length) []
    else
      match s with
      | [] => [acc.reverse]
      | c :: rest => pySplitAux sep fuel rest (c :: acc)

/-- Python `s.split(sep)` for a non-empty separator. -/
def pySplit (sep s : String) : List String :=
  (pySplitAux sep.data (s.data.length + 1) s.data []).map String.mk

/-- Python `sep in s` (substring test) for a non-empty separator. -/
def pyContains (sep s : String) : Bool := 1 < (pySplit sep s).length

/-! ## Structured-response extraction (`ai_identifier.py`, used at lines
198-203, 303-308 and 535-540):

    if "```json" in content:
        content = content.split("```json")[1].split("```")[0]
    elif "```" in content:
        content = content.split("```")[1].split("```")[0]
-/

def extractJson (content : String) : String :=
  if pyContains "```json" content then
    (pySplit "```" ((pySplit "```json" content).getD 1 "")).getD 0 ""
  else if pyContains "```" content then
    (pySplit "```" ((pySplit "```" content).getD 1 "")).getD 0 ""
  else content

/-- Python `str.strip()` (the call `json.loads(content.strip())` applies it to
the extracted text before parsing). -/
def pyStrip (s : String) : String :=
  String.mk (((s.data.dropWhile Char.isWhitespace).reverse.dropWhile Char.isWhitespace).reverse)

/-! ## Marketplace client data model (`services/ebay.py`) -/

/-- Dataclass `EbaySoldItem` (`ebay.py` lines 9-17). -/
structure EbaySoldItem where
  title : String
  price : ℚ
  currency : String
  condition : String
  sold_date : Option String
  image_url : Option String
  item_url : String
deriving DecidableEq

/-- Dataclass `EbayMarketData` (`ebay.py` lines 20-28). -/
structure EbayMarketData where
  query : String
  total_found : ℤ
  items : List EbaySoldItem
  avg_price : ℚ
  min_price : ℚ
  max_price : ℚ
  median_price : ℚ
deriving DecidableEq

/-- The fields of one record of the Finding-API response that
`EbayFindingClient.find_completed_items` reads (`ebay.py` lines 230-255).
`price` is `float(sellingStatus.currentPrice.__value__)` with default `0`;
`selling_state` is `sellingStatus.sellingState` with default `""`. -/
structure FindingRecord where
  price : ℚ
  selling_state : String
  title : String
  currency : String
  condition : String
  sold_date : String
  gallery_url : String
  item_url : String
deriving DecidableEq

/-- The loop body's inclusion test (`ebay.py` lines 236-241): records failing
the sold filter are skipped by `continue`; only positively-priced records are
appended to `prices` and `items`. -/
def recordIncluded (sold_only : Bool) (r : FindingRecord) : Bool :=
  !(decide (r.selling_state ≠ "EndedWithSales") && sold_only) && decide (0 < r.price)

/-- Construction of one `EbaySoldItem` from a record (`ebay.py` lines 245-255). -/
def recordToItem (r : FindingRecord) : EbaySoldItem :=
  { title := r.title
    price := r.price
    currency := r.currency
    condition := r.condition
    sold_date := some r.sold_date
    image_url := if r.gallery_url = "" then none else some r.gallery_url
    item_url := r.item_url }

/-- Raw (pre-rounding) price statistics (`ebay.py` lines 258-266):

    if prices:
        prices_sorted = sorted(prices)
        avg_price = sum(prices) / len(prices)
        min_price = prices_sorted[0]
        max_price = prices_sorted[-1]
        mid = len(prices_sorted) // 2
        median_price = prices_sorted[mid] if len(prices_sorted) % 2
                       else (prices_sorted[mid-1] + prices_sorted[mid]) / 2
    else:
        avg_price = min_price = max_price = median_price = 0
-/
structure PriceStats where
  avg : ℚ
  min : ℚ
  max : ℚ
  median : ℚ
deriving DecidableEq

def computeStats (prices : List ℚ) : PriceStats :=
  if prices = [] then ⟨0, 0, 0, 0⟩
  else
    { avg := prices.sum / (prices.length : ℚ)
      min := (List.insertionSort (· ≤ ·) prices).getD 0 0
      max := (List.insertionSort (· ≤ ·) prices).getD
        ((List.insertionSort (· ≤ ·) prices).length - 1) 0
      median :=
        if (List.insertionSort (· ≤ ·) prices).length % 2 = 1 then
          (List.insertionSort (· ≤ ·) prices).getD
            ((List.insertionSort (· ≤ ·) prices).length / 2) 0
        else
          ((List.insertionSort (· ≤ ·) prices).getD
              ((List.insertionSort (· ≤ ·) prices).length / 2 - 1) 0
            + (List.insertionSort (· ≤ ·) prices).getD
              ((List.insertionSort (· ≤ ·) prices).length / 2) 0) / 2 }

/-- The `prices` list accumulated by the parsing loop (`ebay.py` lines
228-242): the prices of the filter-passing, positively-priced records. -/
def includedPrices (sold_only : Bool) (records : List FindingRecord) : List ℚ :=
  (records.filter (recordIncluded sold_only)).map FindingRecord.price

/-- Function `EbayFindingClient.find_completed_items` (`ebay.py` lines 184-278), as a
function of the parsed response: `records` are the entries of
`searchResult.item` and `total` is the parsed `paginationOutput.totalEntries`.
(The HTTP request, the non-success-status exception and the
missing-credential exception are upstream of the parsing this models.)
Note the statistics are computed over `includedPrices` — the full `prices`
list — while `items` is truncated to `limit` in the returned record. -/
def find_completed_items (query : String) (limit : ℕ) (sold_only : Bool)
    (records : List FindingRecord) (total : ℤ) : EbayMarketData :=
  { query := query
    total_found := total
    items := ((records.filter (recordIncluded sold_only)).map recordToItem).take limit
    avg_price := pyRound (computeStats (includedPrices sold_only records)).avg 2
    min_price := pyRound (computeStats (includedPrices sold_only records)).min 2
    max_price := pyRound (computeStats (includedPrices sold_only records)).max 2
    median_price := pyRound (computeStats (includedPrices sold_only records)).median 2 }

/-! ## Query builder and fallback broadening (`ai_identifier.py` lines 116-146) -/

/-- Python `" ".join(terms)`. -/
def joinSpace (terms : List String) : String := String.intercalate " " terms

/-- The query construction (`ai_identifier.py` lines 123-124):

    search_terms = [item_name] + keywords[:3]
    query = " ".join(search_terms[:4])
-/
def buildQuery (item_name : String) (keywords : List String) : String :=
  joinSpace ((item_name :: keywords.take 3).take 4)

/-- Function `search_ebay_for_item` (`ai_identifier.py` lines 116-146), with the
marketplace client's reply modelled by a pure `oracle` from query strings to
market data.  The second component instruments the searches actually issued,
in order.  (The surrounding `try/except` returns `None` on an exception; the
oracle is total, so that branch is not reachable in the model.) -/
def search_ebay_for_item (configured : Bool) (oracle : String → EbayMarketData)
    (keywords : List String) (item_name : String) :
    Option EbayMarketData × List String :=
  if !configured then (none, [])
  else
    let query := buildQuery item_name keywords
    let market_data := oracle query
    if market_data.total_found < 3 ∧ 1 < keywords.length then
      let broader_query := joinSpace (keywords.take 2)
      (some (oracle broader_query), [query, broader_query])
    else
      (some market_data, [query])

/-! ## Price refinement engine (`ai_identifier.py` lines 149-214) and the
orchestrator's market stage (`ai_identifier.py` lines 315-327) -/

/-- The fields of the mutable `ai_result` dict that the refinement stage reads
or writes. -/
structure Estimate where
  item_name : String
  estimated_value_low : ℚ
  estimated_value_high : ℚ
  suggested_price : ℚ
  selling_tips : String
deriving DecidableEq

/-- The payload parsed from the refinement response (`refined` at line 203);
every field is read with `.get`, so each is optional. -/
structure RefinedPayload where
  estimated_value_low : Option ℚ
  estimated_value_high : Option ℚ
  suggested_price : Option ℚ
  market_analysis : Option String
deriving DecidableEq

/-- Outcome of the `httpx` POST to the reasoning service inside
`refine_estimate_with_market_data` (lines 174-189): either a transport-level
failure (timeout, connection error) or a response carrying a status code and
the message content string. -/
inductive RefineOutcome where
  | transportError : RefineOutcome
  | response (status : ℕ) (content : String) : RefineOutcome
deriving DecidableEq

/-- The Python exceptions that can escape `refine_estimate_with_market_data`:
an `httpx` transport exception, or `json.JSONDecodeError` from line 203. -/
inductive RefineFailure where
  | transport : RefineFailure
  | parse : RefineFailure
deriving DecidableEq

/-- The string prefix of line 212 (`f"\n\n... Market Analysis: {...}"`,
byte-faithful to the source file's mangled emoji). -/
def marketAnalysisHeader : String := "\n\n\uf8ff\u00fc\u00ec\u00e4 Market Analysis: "

/-- Function `refine_estimate_with_market_data` (`ai_identifier.py` lines 149-214).
`parseJson` models `json.loads` restricted to the expected payload shape
(`none` = raise `JSONDecodeError`); the function has no `try/except`, so a
transport error or a parse failure escapes as an exception (`Except.error`).
Note the `market_data` argument only feeds the prompt sent to the external
service, so it does not influence the returned value beyond `outcome`. -/
def refine_estimate_with_market_data (parseJson : String → Option RefinedPayload)
    (ai_result : Estimate) (outcome : RefineOutcome) : Except RefineFailure Estimate :=
  match outcome with
  | .transportError => .error .transport
  | .response status content =>
    if status ≠ 200 then .ok ai_result
    else
      match parseJson (pyStrip (extractJson content)) with
      | none => .error .parse
      | some refined =>
        .ok { ai_result with
          estimated_value_low :=
            refined.estimated_value_low.getD ai_result.estimated_value_low
          estimated_value_high :=
            refined.estimated_value_high.getD ai_result.estimated_value_high
          suggested_price :=
            refined.suggested_price.getD ai_result.suggested_price
          selling_tips :=
            match refined.market_analysis with
            | some m =>
              if m = "" then ai_result.selling_tips
              else ai_result.selling_tips ++ marketAnalysisHeader ++ m
            | none => ai_result.selling_tips }

/-- The market-refinement step of `identify_item` (`ai_identifier.py` lines
315-327): refinement is invoked exactly when market data was obtained with a
positive `total_found`; there is no `try/except` around the call, so an
exception escaping `refine_estimate_with_market_data` fails the whole request
(FastAPI surfaces it as an HTTP 500). -/
def identify_market_stage (parseJson : String → Option RefinedPayload)
    (ai_result : Estimate) (market_data : Option EbayMarketData)
    (outcome : RefineOutcome) : Except RefineFailure Estimate :=
  match market_data with
  | some md =>
    if 0 < md.total_found then
      refine_estimate_with_market_data parseJson ai_result outcome
    else .ok ai_result
  | none => .ok ai_result

/-! ## Shelf-scan batch orchestrator (`ai_identifier.py` lines 469-635) -/

/-- One entry of the JSON array returned by the vision stage (a Python dict
read with `.get`, so every field is optional). -/
structure ShelfCandidate where
  item_name : Option String
  description : Option String
  category : Option String
  estimated_shelf_price : Option ℚ
  search_query : Option String
  confidence : Option String
deriving DecidableEq

/-- Response model `ShelfItem` (`ai_identifier.py` lines 408-419). -/
structure ShelfItem where
  item_name : String
  description : String
  category : String
  estimated_shelf_price : ℚ
  ebay_low : ℚ
  ebay_high : ℚ
  ebay_avg : ℚ
  profit_potential : ℚ
  deal_rating : String
  search_query : String
  confidence : String
deriving DecidableEq

/-- The five deal-rating strings, byte-faithful to the source file (whose
emoji were mangled by an encoding round-trip before commit). -/
def hotDealRating : String := "\uf8ff\u00fc\u00ee\u2022 Hot Deal"

def goodFindRating : String := "\u201a\u00fa\u00d6 Good Find"

def maybeRating : String := "\u201a\u00f6\u2020\u00d4\u220f\u00e8 Maybe"

def skipRating : String := "\u201a\u00f9\u00e5 Skip"

def checkManuallyRating : String := "\u201a\u00f6\u2020\u00d4\u220f\u00e8 Check Manually"

/-- The deal-rating classification (`ai_identifier.py` lines 575-582). -/
def dealRating (profit_potential : ℚ) : String :=
  if profit_potential ≥ 5 then hotDealRating
  else if profit_potential ≥ 3 then goodFindRating
  else if profit_potential ≥ 1.5 then maybeRating
  else skipRating

/-- The environment of one shelf scan: whether the marketplace client is
configured, and the outcome of `ebay_client.find_completed_items(q, limit=10)`
for each query (`Except.error` = the call raised an exception). -/
structure ScanEnv where
  configured : Bool
  lookup : String → Except String EbayMarketData

/-- Model of `item.get("search_query", item.get("item_name", ""))` (line 556). -/
def scanQuery (c : ShelfCandidate) : String :=
  c.search_query.getD (c.item_name.getD "")

/-- The market-bounds acquisition inside the per-item `try` block
(`ai_identifier.py` lines 553-566): the marketplace path can raise; the
heuristic path multiplies the raw `item.get("estimated_shelf_price", 5)`
value (no flooring of non-positive values happens here). -/
def enrichCandidate (env : ScanEnv) (c : ShelfCandidate) :
    Except String (ℚ × ℚ × ℚ) :=
  if env.configured then
    (env.lookup (scanQuery c)).map fun md =>
      (md.min_price, md.max_price, md.avg_price)
  else
    .ok ((c.estimated_shelf_price.getD 5) * 2,
         (c.estimated_shelf_price.getD 5) * 8,
         (c.estimated_shelf_price.getD 5) * 4)

/-- The shelf-price normalization (`ai_identifier.py` lines 568-570):
`shelf_price = item.get("estimated_shelf_price", 5)` floored to `5` when
non-positive. -/
def normalizedShelfPrice (c : ShelfCandidate) : ℚ :=
  if c.estimated_shelf_price.getD 5 ≤ 0 then 5 else c.estimated_shelf_price.getD 5

/-- The per-candidate body of the enrichment loop (`ai_identifier.py` lines
551-613): the `try` branch builds the enriched `ShelfItem`; the `except`
branch still emits the candidate with zero market fields and the
"Check Manually" rating. -/
def processCandidate (env : ScanEnv) (c : ShelfCandidate) : ShelfItem :=
  match enrichCandidate env c with
  | .ok (ebay_low, ebay_high, ebay_avg) =>
    { item_name := c.item_name.getD "Unknown"
      description := c.description.getD ""
      category := c.category.getD "other"
      estimated_shelf_price := normalizedShelfPrice c
      ebay_low := ebay_low
      ebay_high := ebay_high
      ebay_avg := ebay_avg
      profit_potential := pyRound
        (if 0 < normalizedShelfPrice c then ebay_avg / normalizedShelfPrice c else 0) 1
      deal_rating := dealRating
        (if 0 < normalizedShelfPrice c then ebay_avg / normalizedShelfPrice c else 0)
      search_query := c.search_query.getD ""
      confidence := c.confidence.getD "medium" }
  | .error _ =>
    { item_name := c.item_name.getD "Unknown"
      description := c.description.getD ""
      category := c.category.getD "other"
      estimated_shelf_price := c.estimated_shelf_price.getD 5
      ebay_low := 0
      ebay_high := 0
      ebay_avg := 0
      profit_potential := 0
      deal_rating := checkManuallyRating
      search_query := c.search_query.getD ""
      confidence := c.confidence.getD "low" }

/-- The deal list of `scan_shelf_for_deals` (`ai_identifier.py` lines 549-616):
the identified candidates are truncated to `max_items`, each is processed
independently, and the result is sorted by `profit_potential` descending
(Python's stable `list.sort(key=..., reverse=True)`). -/
def scanShelfDeals (env : ScanEnv) (identified_items : List ShelfCandidate)
    (max_items : ℕ) : List ShelfItem :=
  let deals := (identified_items.take max_items).map (processCandidate env)
  List.insertionSort (fun a b => b.profit_potential ≤ a.profit_potential) deals

/-! ## Concrete inputs used by individual claim theorems and witnesses -/

/-- A Finding-API record that passes the sold filter, carrying price `p`. -/
def soldRecord (p : ℚ) : FindingRecord :=
  ⟨p, "EndedWithSales", "title", "USD", "Used", "2024-01-01", "", "url"⟩

/-- A shelf candidate priced at `0` on the shelf (present but non-positive). -/
def zeroPriceCandidate : ShelfCandidate :=
  ⟨some "Dish", none, none, some 0, none, none⟩

/-- A scan environment whose marketplace client is not configured. -/
def unconfiguredEnv : ScanEnv := ⟨false, fun _ => .error "unused"⟩

/-- A scan environment returning market average `124` for every query. -/
def ratio496Env : ScanEnv :=
  ⟨true, fun q => .ok ⟨q, 10, [], 124, 50, 200, 120⟩⟩

/-- A shelf candidate with shelf price `25` (so the heuristic ratio under
`ratio496Env` is `124/25 = 4.96`). -/
def price25Candidate : ShelfCandidate :=
  ⟨some "Camera", none, none, some 25, some "camera", some "high"⟩

/-- A scan environment whose marketplace lookup raises exactly on the query
`"bad"`. -/
def failOnBadEnv : ScanEnv :=
  ⟨true, fun q => if q = "bad" then .error "boom" else .ok ⟨q, 4, [], 40, 20, 60, 40⟩⟩

/-- A candidate whose enrichment succeeds under `failOnBadEnv`. -/
def okCandidate : ShelfCandidate :=
  ⟨some "Bowl", none, none, some 10, some "good", none⟩

/-- A candidate whose enrichment raises under `failOnBadEnv`. -/
def badCandidate : ShelfCandidate :=
  ⟨some "Cup", none, none, some 10, some "bad", none⟩

/-! ## Claim theorems -/

/-- C7: for every item name and keyword list, the built search query is the
item name followed by up to the first 3 keywords; the resulting term list has
at most 4 terms, so the `[:4]` truncation is the identity, and the terms are
joined by single spaces.  In particular
`buildQuery "Pyrex Dish" ["vintage","kitchen","lid","rare","pattern"]`
is `"Pyrex Dish vintage kitchen lid"`. -/
theorem C7_build_query :
    (∀ (item_name : String) (keywords : List String),
      buildQuery item_name keywords = joinSpace (item_name :: keywords.take 3) ∧
      (item_name :: keywords.take 3).length ≤ 4) ∧
    buildQuery "Pyrex Dish" ["vintage", "kitchen", "lid", "rare", "pattern"]
      = "Pyrex Dish vintage kitchen lid" := by
  constructor
  · intro item_name keywords
    have hlen : (item_name :: keywords.take 3).length ≤ 4 := by
      simp only [List.length_cons, List.length_take]
      omega
    exact ⟨congrArg joinSpace (List.take_of_length_le hlen), hlen⟩
  · decide

/-- C9: the deal rating uses inclusive thresholds on the profit-potential
ratio: `≥ 5` yields the hot-deal rating, else `≥ 3` the good-find rating,
else `≥ 1.5` the maybe rating, else skip; in particular a ratio of exactly
`5` is a hot deal, `3` a good find, `1.5` a maybe, and `1.49` a skip. -/
theorem C9_deal_rating_thresholds :
    dealRating 5 = hotDealRating ∧ dealRating 3 = goodFindRating ∧
    dealRating 1.5 = maybeRating ∧ dealRating 1.49 = skipRating ∧
    (∀ p : ℚ, 5 ≤ p → dealRating p = hotDealRating) ∧
    (∀ p : ℚ, 3 ≤ p → p < 5 → dealRating p = goodFindRating) ∧
    (∀ p : ℚ, 1.5 ≤ p → p < 3 → dealRating p = maybeRating) ∧
    (∀ p : ℚ, p < 1.5 → dealRating p = skipRating) := by
  refine ⟨by norm_num [dealRating], by norm_num [dealRating],
    by norm_num [dealRating], by norm_num [dealRating], ?_, ?_, ?_, ?_⟩ <;>
    · intro p
      intros
      unfold dealRating
      split_ifs <;> first | rfl | (exfalso; norm_num at *; linarith)

theorem C9_deal_rating_thresholds_witness :
    dealRating 6 = hotDealRating ∧ dealRating 4 = goodFindRating ∧
    dealRating 2 = maybeRating ∧ dealRating 1 = skipRating :=
  ⟨C9_deal_rating_thresholds.2.2.2.2.1 6 (by norm_num),
   C9_deal_rating_thresholds.2.2.2.2.2.1 4 (by norm_num) (by norm_num),
   C9_deal_rating_thresholds.2.2.2.2.2.2.1 2 (by norm_num) (by norm_num),
   C9_deal_rating_thresholds.2.2.2.2.2.2.2 1 (by norm_num)⟩

/-- C5: JSON extraction takes, in order: the interior of a fenced block
labeled `json` if one exists, else the interior of any fenced block, else the
raw text; the selected text is whitespace-stripped before `json.loads`.  The
three inputs of the claim all select the same stripped text, the canonical
serialization of the object with field `a` equal to `1`, so all three parse
to that object. -/
theorem C5_extract_json_policy :
    pyStrip (extractJson "```json\n\x7b\"a\":1\x7d\n```") = "\x7b\"a\":1\x7d" ∧
    pyStrip (extractJson "```\n\x7b\"a\":1\x7d\n```") = "\x7b\"a\":1\x7d" ∧
    pyStrip (extractJson "\x7b\"a\":1\x7d") = "\x7b\"a\":1\x7d" ∧
    (∀ s, pyContains "```json" s = true →
      extractJson s = (pySplit "```" ((pySplit "```json" s).getD 1 "")).getD 0 "") ∧
    (∀ s, pyContains "```json" s = false → pyContains "```" s = true →
      extractJson s = (pySplit "```" ((pySplit "```" s).getD 1 "")).getD 0 "") ∧
    (∀ s, pyContains "```json" s = false → pyContains "```" s = false →
      extractJson s = s) := by
  refine ⟨by decide, by decide, by decide, ?_, ?_, ?_⟩ <;>
    · intro s
      intros
      unfold extractJson
      simp_all

theorem C5_extract_json_policy_witness :
    extractJson "pre ```json\nX\n``` post" = "\nX\n" ∧
    extractJson "pre ```\nY\n``` post" = "\nY\n" ∧
    extractJson "plain text" = "plain text" :=
  ⟨(C5_extract_json_policy.2.2.2.1 "pre ```json\nX\n``` post" (by decide)).trans (by decide),
   (C5_extract_json_policy.2.2.2.2.1 "pre ```\nY\n``` post" (by decide) (by decide)).trans
     (by decide),
   C5_extract_json_policy.2.2.2.2.2 "plain text" (by decide) (by decide)⟩

/-- C6: with the marketplace client configured, a second (broader) search is
issued if and only if the first search's `total_found` is below 3 and more
than one keyword exists; the second query is the first 2 keywords joined
(the item name is dropped), and at most two searches are ever issued. -/
theorem C6_fallback_broadening (configured : Bool) (oracle : String → EbayMarketData)
    (keywords : List String) (item_name : String) (h : configured = true) :
    (search_ebay_for_item configured oracle keywords item_name).2.length ≤ 2 ∧
    ((search_ebay_for_item configured oracle keywords item_name).2.length = 2 ↔
      ((oracle (buildQuery item_name keywords)).total_found < 3 ∧ 1 < keywords.length)) ∧
    ((oracle (buildQuery item_name keywords)).total_found < 3 ∧ 1 < keywords.length →
      (search_ebay_for_item configured oracle keywords item_name).2
          = [buildQuery item_name keywords, joinSpace (keywords.take 2)] ∧
      (search_ebay_for_item configured oracle keywords item_name).1
          = some (oracle (joinSpace (keywords.take 2)))) ∧
    (¬((oracle (buildQuery item_name keywords)).total_found < 3 ∧ 1 < keywords.length) →
      (search_ebay_for_item configured oracle keywords item_name).2
          = [buildQuery item_name keywords] ∧
      (search_ebay_for_item configured oracle keywords item_name).1
          = some (oracle (buildQuery item_name keywords))) := by
  subst h
  unfold search_ebay_for_item
  by_cases hc : (oracle (buildQuery item_name keywords)).total_found < 3 ∧ 1 < keywords.length
  · simp [hc]
  · simp [hc]

theorem C6_fallback_broadening_witness :
    (search_ebay_for_item true (fun q => ⟨q, 2, [], 0, 0, 0, 0⟩) ["glass", "blue"] "Vase").2
        = ["Vase glass blue", "glass blue"] ∧
    (search_ebay_for_item true (fun q => ⟨q, 5, [], 0, 0, 0, 0⟩) ["glass", "blue"] "Vase").2
        = ["Vase glass blue"] := by
  constructor
  · have h := (C6_fallback_broadening true (fun q => ⟨q, 2, [], 0, 0, 0, 0⟩)
      ["glass", "blue"] "Vase" rfl).2.2.1 (by decide)
    exact h.1.trans (by decide)
  · have h := (C6_fallback_broadening true (fun q => ⟨q, 5, [], 0, 0, 0, 0⟩)
      ["glass", "blue"] "Vase" rfl).2.2.2 (by decide)
    exact h.1.trans (by decide)

/-- C1: the claim (and the spec) say a non-success response, a transport
error, or a parse failure all make refinement return the estimate unchanged
and never fail identification.  The code only implements this for the
non-success-status case (line 192); a transport error or a
`json.JSONDecodeError` escapes `refine_estimate_with_market_data`, and
`identify_item` has no `try/except` around the refinement call (line 327), so
the exception fails the whole request.  This theorem evaluates the embedded
pipeline at the failing inputs: the status case degrades as claimed, the
transport and parse cases abort. -/
theorem C1_refinement_failure_semantics :
    identify_market_stage (fun _ => none) ⟨"Vase", 10, 25, 18, "tips"⟩
        (some ⟨"vase", 1, [], 20, 20, 20, 20⟩) (.response 500 "err")
      = .ok ⟨"Vase", 10, 25, 18, "tips"⟩ ∧
    identify_market_stage (fun _ => none) ⟨"Vase", 10, 25, 18, "tips"⟩
        (some ⟨"vase", 1, [], 20, 20, 20, 20⟩) .transportError
      = .error .transport ∧
    identify_market_stage (fun _ => none) ⟨"Vase", 10, 25, 18, "tips"⟩
        (some ⟨"vase", 1, [], 20, 20, 20, 20⟩) (.response 200 "not json")
      = .error .parse := by
  refine ⟨?_, ?_, ?_⟩ <;> rfl

theorem normalizedShelfPrice_pos (c : ShelfCandidate) : 0 < normalizedShelfPrice c := by
  unfold normalizedShelfPrice
  split_ifs with h
  · norm_num
  · linarith

theorem enrichCandidate_unconfigured (env : ScanEnv) (c : ShelfCandidate)
    (h : env.configured = false) :
    enrichCandidate env c
      = .ok (c.estimated_shelf_price.getD 5 * 2, c.estimated_shelf_price.getD 5 * 8,
             c.estimated_shelf_price.getD 5 * 4) := by
  simp [enrichCandidate, h]

/-- C3: the claim states the heuristic market bounds are multiples of the
normalized shelf price `s` (floored to 5 when absent or non-positive).  The
code instead multiplies the raw `item.get("estimated_shelf_price", 5)` value,
which only defaults when the key is absent: a candidate present with shelf
price `0` gets `ebay_low = 0`, not `s × 2 = 10`. -/
theorem C3_normalization_counterexample :
    normalizedShelfPrice zeroPriceCandidate = 5 ∧
    (processCandidate unconfiguredEnv zeroPriceCandidate).ebay_low = 0 ∧
    (processCandidate unconfiguredEnv zeroPriceCandidate).ebay_low
      ≠ normalizedShelfPrice zeroPriceCandidate * 2 ∧
    (processCandidate unconfiguredEnv zeroPriceCandidate).ebay_high = 0 ∧
    (processCandidate unconfiguredEnv zeroPriceCandidate).ebay_avg = 0 ∧
    (processCandidate unconfiguredEnv zeroPriceCandidate).profit_potential = 0 := by
  refine ⟨by norm_num [normalizedShelfPrice, zeroPriceCandidate], ?_, ?_, ?_, ?_, ?_⟩ <;>
    norm_num [processCandidate, enrichCandidate, normalizedShelfPrice,
      unconfiguredEnv, zeroPriceCandidate, pyRound, pyRoundInt]

/-- C3 (amended): without a configured marketplace client, the heuristic
bounds are `r × 2`, `r × 8`, `r × 4` for the raw shelf price
`r = item.get("estimated_shelf_price", 5)` (defaulted only when absent, not
floored), while `profit_potential` divides by the normalized price `s`; when
`r > 0` — in particular whenever the field is absent or positive, the cases
the claim intends — `r = s` and the claim's equations hold as stated. -/
theorem C3_heuristic_bounds_amended (env : ScanEnv) (c : ShelfCandidate)
    (h : env.configured = false) :
    (processCandidate env c).ebay_low = c.estimated_shelf_price.getD 5 * 2 ∧
    (processCandidate env c).ebay_high = c.estimated_shelf_price.getD 5 * 8 ∧
    (processCandidate env c).ebay_avg = c.estimated_shelf_price.getD 5 * 4 ∧
    (processCandidate env c).estimated_shelf_price = normalizedShelfPrice c ∧
    (processCandidate env c).profit_potential
      = pyRound (c.estimated_shelf_price.getD 5 * 4 / normalizedShelfPrice c) 1 ∧
    (processCandidate env c).deal_rating
      = dealRating (c.estimated_shelf_price.getD 5 * 4 / normalizedShelfPrice c) ∧
    (0 < c.estimated_shelf_price.getD 5 →
      c.estimated_shelf_price.getD 5 = normalizedShelfPrice c) := by
  have hpos := normalizedShelfPrice_pos c
  unfold processCandidate
  rw [enrichCandidate_unconfigured env c h]
  simp only [if_pos hpos]
  refine ⟨trivial, trivial, trivial, trivial, trivial, trivial, fun hr => ?_⟩
  unfold normalizedShelfPrice
  rw [if_neg (by linarith)]

theorem C3_heuristic_bounds_amended_witness :
    (processCandidate unconfiguredEnv ⟨some "Dish", none, none, some 8, none, none⟩).ebay_low
      = 16 ∧
    (processCandidate unconfiguredEnv ⟨some "Dish", none, none, some 8, none, none⟩).ebay_avg
      = 32 := by
  have h := C3_heuristic_bounds_amended unconfiguredEnv
    ⟨some "Dish", none, none, some 8, none, none⟩ rfl
  exact ⟨h.1.trans (by norm_num), h.2.2.1.trans (by norm_num)⟩

/-- C10: the deal-rating classification is applied to the unrounded ratio
`ebay_avg / shelf_price`, while the reported `profit_potential` is that ratio
rounded to 1 decimal; for an exact ratio of `4.96` (market average 124,
shelf price 25) the output reports `profit_potential = 5.0` — the hot-deal
threshold — while carrying the good-find rating of the band below. -/
theorem C10_unrounded_classification_rounded_report :
    (∀ (env : ScanEnv) (c : ShelfCandidate) (lo hi avg : ℚ),
      enrichCandidate env c = .ok (lo, hi, avg) →
      (processCandidate env c).profit_potential
          = pyRound (avg / normalizedShelfPrice c) 1 ∧
      (processCandidate env c).deal_rating
          = dealRating (avg / normalizedShelfPrice c)) ∧
    (processCandidate ratio496Env price25Candidate).profit_potential = 5 ∧
    (processCandidate ratio496Env price25Candidate).deal_rating = goodFindRating ∧
    goodFindRating ≠ hotDealRating := by
  have hgen : ∀ (env : ScanEnv) (c : ShelfCandidate) (lo hi avg : ℚ),
      enrichCandidate env c = .ok (lo, hi, avg) →
      (processCandidate env c).profit_potential
          = pyRound (avg / normalizedShelfPrice c) 1 ∧
      (processCandidate env c).deal_rating
          = dealRating (avg / normalizedShelfPrice c) := by
    intro env c lo hi avg h
    have hpos := normalizedShelfPrice_pos c
    unfold processCandidate
    rw [h]
    simp only [if_pos hpos]
    exact ⟨trivial, trivial⟩
  have henr : enrichCandidate ratio496Env price25Candidate = .ok (50, 200, 124) := rfl
  have hn : normalizedShelfPrice price25Candidate = 25 := by
    norm_num [normalizedShelfPrice, price25Candidate]
  refine ⟨hgen, ?_, ?_, by decide⟩
  · rw [(hgen _ _ _ _ _ henr).1, hn]
    norm_num [pyRound, pyRoundInt]
  · rw [(hgen _ _ _ _ _ henr).2, hn]
    norm_num [dealRating]

theorem C10_unrounded_classification_rounded_report_witness :
    (processCandidate ratio496Env price25Candidate).profit_potential
      = pyRound (124 / normalizedShelfPrice price25Candidate) 1 :=
  (C10_unrounded_classification_rounded_report.1 ratio496Env price25Candidate
    50 200 124 rfl).1

/-- C8: in a shelf-scan batch, the output is a permutation of the per-item
results of the truncated candidate list (so each candidate's emitted item
depends only on that candidate, none is dropped, and the batch never aborts);
a candidate whose enrichment raises still appears, with all four market
fields zero and the distinct "Check Manually" rating. -/
theorem C8_batch_failure_tolerance (env : ScanEnv) (cands : List ShelfCandidate)
    (max_items : ℕ) :
    (scanShelfDeals env cands max_items).Perm
        ((cands.take max_items).map (processCandidate env)) ∧
    (scanShelfDeals env cands max_items).length = (cands.take max_items).length ∧
    (∀ c ∈ cands.take max_items,
      processCandidate env c ∈ scanShelfDeals env cands max_items) ∧
    (∀ c : ShelfCandidate, (∃ e, enrichCandidate env c = .error e) →
      (processCandidate env c).ebay_low = 0 ∧
      (processCandidate env c).ebay_high = 0 ∧
      (processCandidate env c).ebay_avg = 0 ∧
      (processCandidate env c).profit_potential = 0 ∧
      (processCandidate env c).deal_rating = checkManuallyRating) ∧
    checkManuallyRating ≠ hotDealRating ∧ checkManuallyRating ≠ goodFindRating ∧
    checkManuallyRating ≠ maybeRating ∧ checkManuallyRating ≠ skipRating := by
  have hperm : (scanShelfDeals env cands max_items).Perm
      ((cands.take max_items).map (processCandidate env)) :=
    List.perm_insertionSort _ _
  refine ⟨hperm, ?_, ?_, ?_, by decide, by decide, by decide, by decide⟩
  · rw [hperm.length_eq, List.length_map]
  · intro c hc
    exact hperm.mem_iff.mpr (List.mem_map_of_mem _ hc)
  · rintro c ⟨e, he⟩
    unfold processCandidate
    rw [he]
    exact ⟨rfl, rfl, rfl, rfl, rfl⟩

theorem C8_batch_failure_tolerance_witness :
    processCandidate failOnBadEnv badCandidate
        ∈ scanShelfDeals failOnBadEnv [okCandidate, badCandidate] 10 ∧
    (processCandidate failOnBadEnv badCandidate).deal_rating = checkManuallyRating ∧
    (processCandidate failOnBadEnv badCandidate).ebay_avg = 0 ∧
    (processCandidate failOnBadEnv okCandidate)
        ∈ scanShelfDeals failOnBadEnv [okCandidate, badCandidate] 10 := by
  have h := C8_batch_failure_tolerance failOnBadEnv [okCandidate, badCandidate] 10
  have herr := h.2.2.2.1 badCandidate ⟨"boom", rfl⟩
  exact ⟨h.2.2.1 badCandidate (by simp), herr.2.2.2.2, herr.2.2.1,
    h.2.2.1 okCandidate (by simp)⟩

theorem sorted_getD_le {s : List ℚ} (hs : List.Sorted (· ≤ ·) s) {i j : ℕ}
    (hij : i ≤ j) (hj : j < s.length) : s.getD i 0 ≤ s.getD j 0 := by
  rw [List.getD_eq_getElem s 0 (lt_of_le_of_lt hij hj), List.getD_eq_getElem s 0 hj]
  have h := List.Sorted.rel_get_of_le hs
    (a := ⟨i, lt_of_le_of_lt hij hj⟩) (b := ⟨j, hj⟩) (Fin.mk_le_mk.mpr hij)
  simpa using h

theorem computeStats_invariants (prices : List ℚ) (h : prices ≠ []) :
    (computeStats prices).min ≤ (computeStats prices).median ∧
    (computeStats prices).median ≤ (computeStats prices).max ∧
    (computeStats prices).avg = prices.sum / (prices.length : ℚ) := by
  have hsorted : (List.insertionSort (· ≤ ·) prices).Sorted (· ≤ ·) :=
    List.sorted_insertionSort _ _
  have hlen : (List.insertionSort (· ≤ ·) prices).length = prices.length :=
    (List.perm_insertionSort _ _).length_eq
  have hpos : 0 < (List.insertionSort (· ≤ ·) prices).length := by
    rw [hlen]
    exact List.length_pos.mpr h
  have hmid : (List.insertionSort (· ≤ ·) prices).length / 2
      < (List.insertionSort (· ≤ ·) prices).length :=
    Nat.div_lt_self hpos one_lt_two
  have hmin : (computeStats prices).min = (List.insertionSort (· ≤ ·) prices).getD 0 0 := by
    unfold computeStats
    rw [if_neg h]
  have hmax : (computeStats prices).max
      = (List.insertionSort (· ≤ ·) prices).getD
          ((List.insertionSort (· ≤ ·) prices).length - 1) 0 := by
    unfold computeStats
    rw [if_neg h]
  have havg : (computeStats prices).avg = prices.sum / (prices.length : ℚ) := by
    unfold computeStats
    rw [if_neg h]
  have hmed : (computeStats prices).median
      = if (List.insertionSort (· ≤ ·) prices).length % 2 = 1 then
          (List.insertionSort (· ≤ ·) prices).getD
            ((List.insertionSort (· ≤ ·) prices).length / 2) 0
        else
          ((List.insertionSort (· ≤ ·) prices).getD
              ((List.insertionSort (· ≤ ·) prices).length / 2 - 1) 0
            + (List.insertionSort (· ≤ ·) prices).getD
              ((List.insertionSort (· ≤ ·) prices).length / 2) 0) / 2 := by
    unfold computeStats
    rw [if_neg h]
  refine ⟨?_, ?_, havg⟩
  · rw [hmin, hmed]
    by_cases hodd : (List.insertionSort (· ≤ ·) prices).length % 2 = 1
    · rw [if_pos hodd]
      exact sorted_getD_le hsorted (Nat.zero_le _) hmid
    · rw [if_neg hodd]
      have ha := sorted_getD_le hsorted
        (Nat.zero_le ((List.insertionSort (· ≤ ·) prices).length / 2 - 1)) (by omega)
      have hb := sorted_getD_le hsorted
        (Nat.zero_le ((List.insertionSort (· ≤ ·) prices).length / 2)) hmid
      linarith
  · rw [hmax, hmed]
    by_cases hodd : (List.insertionSort (· ≤ ·) prices).length % 2 = 1
    · rw [if_pos hodd]
      exact sorted_getD_le hsorted
        (show (List.insertionSort (· ≤ ·) prices).length / 2
            ≤ (List.insertionSort (· ≤ ·) prices).length - 1 by omega) (by omega)
    · rw [if_neg hodd]
      have ha := sorted_getD_le hsorted
        (show (List.insertionSort (· ≤ ·) prices).length / 2 - 1
            ≤ (List.insertionSort (· ≤ ·) prices).length - 1 by omega) (by omega)
      have hb := sorted_getD_le hsorted
        (show (List.insertionSort (· ≤ ·) prices).length / 2
            ≤ (List.insertionSort (· ≤ ·) prices).length - 1 by omega) (by omega)
      linarith

theorem computeStats_empty : computeStats [] = ⟨0, 0, 0, 0⟩ := rfl

/-- C2: for every search whose accumulated positive-price list is non-empty,
the snapshot satisfies `min_price ≤ median_price ≤ max_price`, `avg_price`
is the 2-decimal rounding of the arithmetic mean (hence within `1/200` of
it), and `median_price` is the 2-decimal rounding of the standard
even/odd-rule median of the sorted prices; when the list is empty all four
statistics are `0`. -/
theorem C2_market_snapshot_stats_invariants (query : String) (limit : ℕ)
    (sold_only : Bool) (records : List FindingRecord) (total : ℤ) :
    (includedPrices sold_only records ≠ [] →
      (find_completed_items query limit sold_only records total).min_price
        ≤ (find_completed_items query limit sold_only records total).median_price ∧
      (find_completed_items query limit sold_only records total).median_price
        ≤ (find_completed_items query limit sold_only records total).max_price ∧
      (find_completed_items query limit sold_only records total).avg_price
        = pyRound ((includedPrices sold_only records).sum
            / ((includedPrices sold_only records).length : ℚ)) 2 ∧
      |(find_completed_items query limit sold_only records total).avg_price
        - (includedPrices sold_only records).sum
            / ((includedPrices sold_only records).length : ℚ)| ≤ 1/200 ∧
      (find_completed_items query limit sold_only records total).median_price
        = pyRound (if (List.insertionSort (· ≤ ·) (includedPrices sold_only records)).length % 2
              = 1 then
            (List.insertionSort (· ≤ ·) (includedPrices sold_only records)).getD
              ((List.insertionSort (· ≤ ·) (includedPrices sold_only records)).length / 2) 0
          else
            ((List.insertionSort (· ≤ ·) (includedPrices sold_only records)).getD
                ((List.insertionSort (· ≤ ·) (includedPrices sold_only records)).length / 2
                  - 1) 0
              + (List.insertionSort (· ≤ ·) (includedPrices sold_only records)).getD
                ((List.insertionSort (· ≤ ·) (includedPrices sold_only records)).length / 2)
                0) / 2) 2) ∧
    (includedPrices sold_only records = [] →
      (find_completed_items query limit sold_only records total).avg_price = 0 ∧
      (find_completed_items query limit sold_only records total).min_price = 0 ∧
      (find_completed_items query limit sold_only records total).max_price = 0 ∧
      (find_completed_items query limit sold_only records total).median_price = 0) := by
  constructor
  · intro h
    obtain ⟨h1, h2, h3⟩ := computeStats_invariants (includedPrices sold_only records) h
    have havg : (find_completed_items query limit sold_only records total).avg_price
        = pyRound ((includedPrices sold_only records).sum
            / ((includedPrices sold_only records).length : ℚ)) 2 :=
      congrArg (fun q => pyRound q 2) h3
    refine ⟨pyRound_mono 2 h1, pyRound_mono 2 h2, havg, ?_, ?_⟩
    · rw [havg]
      have hb := abs_pyRound_sub_le ((includedPrices sold_only records).sum
            / ((includedPrices sold_only records).length : ℚ)) 2
      calc |pyRound ((includedPrices sold_only records).sum
              / ((includedPrices sold_only records).length : ℚ)) 2
            - (includedPrices sold_only records).sum
              / ((includedPrices sold_only records).length : ℚ)|
          ≤ 1 / (2 * (10 : ℚ) ^ 2) := hb
        _ ≤ 1/200 := by norm_num
    · show pyRound (computeStats (includedPrices sold_only records)).median 2 = _
      refine congrArg (fun q => pyRound q 2) ?_
      unfold computeStats
      rw [if_neg h]
  · intro h
    have hz : computeStats (includedPrices sold_only records) = ⟨0, 0, 0, 0⟩ := by
      rw [h]
      exact computeStats_empty
    refine ⟨?_, ?_, ?_, ?_⟩
    · show pyRound (computeStats (includedPrices sold_only records)).avg 2 = 0
      rw [hz]
      exact pyRound_zero 2
    · show pyRound (computeStats (includedPrices sold_only records)).min 2 = 0
      rw [hz]
      exact pyRound_zero 2
    · show pyRound (computeStats (includedPrices sold_only records)).max 2 = 0
      rw [hz]
      exact pyRound_zero 2
    · show pyRound (computeStats (includedPrices sold_only records)).median 2 = 0
      rw [hz]
      exact pyRound_zero 2

theorem C2_market_snapshot_stats_invariants_witness :
    (find_completed_items "q" 15 true [soldRecord 10, soldRecord 30, soldRecord 20] 3).min_price
      ≤ (find_completed_items "q" 15 true
          [soldRecord 10, soldRecord 30, soldRecord 20] 3).median_price ∧
    (find_completed_items "q" 15 true [soldRecord 10, soldRecord 30, soldRecord 20] 3).median_price
      ≤ (find_completed_items "q" 15 true
          [soldRecord 10, soldRecord 30, soldRecord 20] 3).max_price := by
  have h := (C2_market_snapshot_stats_invariants "q" 15 true
    [soldRecord 10, soldRecord 30, soldRecord 20] 3).1 (by decide)
  exact ⟨h.1, h.2.1⟩

/-- C4: the claim says the four statistics are computed over exactly the
prices of the returned (limit-truncated) `items`.  The code computes them
over the full accumulated `prices` list and truncates `items[:limit]` only
in the returned snapshot: with two sold records priced 10 and 20 and
`limit = 1`, the returned items carry price `[10]` alone while
`avg_price = 15`, the mean of both. -/
theorem C4_truncation_counterexample :
    (find_completed_items "q" 1 true [soldRecord 10, soldRecord 20] 2).items.map
        EbaySoldItem.price = [10] ∧
    (find_completed_items "q" 1 true [soldRecord 10, soldRecord 20] 2).avg_price = 15 ∧
    pyRound ((((find_completed_items "q" 1 true [soldRecord 10, soldRecord 20] 2).items.map
          EbaySoldItem.price).sum)
        / (((find_completed_items "q" 1 true [soldRecord 10, soldRecord 20] 2).items.map
          EbaySoldItem.price).length : ℚ)) 2 = 10 ∧
    (15 : ℚ) ≠ 10 := by
  refine ⟨by decide, ?_, ?_, by norm_num⟩
  · show pyRound (computeStats (includedPrices true [soldRecord 10, soldRecord 20])).avg 2 = 15
    have : (computeStats (includedPrices true [soldRecord 10, soldRecord 20])).avg = 15 := by
      have hip : includedPrices true [soldRecord 10, soldRecord 20] = [10, 20] := by
        norm_num [includedPrices, recordIncluded, soldRecord]
      rw [hip]
      unfold computeStats
      rw [if_neg (List.cons_ne_nil _ _)]
      norm_num
    rw [this]
    norm_num [pyRound, pyRoundInt]
  · have h10 : ((find_completed_items "q" 1 true [soldRecord 10, soldRecord 20] 2).items.map
        EbaySoldItem.price) = [10] := by decide
    rw [h10]
    norm_num [pyRound, pyRoundInt]

/-- C4 (amended): the four statistics are computed over the prices of all
parsed records that pass the sold filter with positive price — the `prices`
list accumulated before the `items[:limit]` truncation; excluded records
never contribute, but records beyond the limit do.  Whenever the included
records number at most `limit` (the typical case, since the request asks the
server for at most `min(limit, 100)` entries), the returned items' prices
are exactly the included prices, and the claim's reading holds. -/
theorem C4_stats_scope_amended (query : String) (limit : ℕ) (sold_only : Bool)
    (records : List FindingRecord) (total : ℤ) :
    (find_completed_items query limit sold_only records total).items
        = ((records.filter (recordIncluded sold_only)).map recordToItem).take limit ∧
    (find_completed_items query limit sold_only records total).avg_price
        = pyRound (computeStats (includedPrices sold_only records)).avg 2 ∧
    (find_completed_items query limit sold_only records total).min_price
        = pyRound (computeStats (includedPrices sold_only records)).min 2 ∧
    (find_completed_items query limit sold_only records total).max_price
        = pyRound (computeStats (includedPrices sold_only records)).max 2 ∧
    (find_completed_items query limit sold_only records total).median_price
        = pyRound (computeStats (includedPrices sold_only records)).median 2 ∧
    ((records.filter (recordIncluded sold_only)).length ≤ limit →
      (find_completed_items query limit sold_only records total).items.map
          EbaySoldItem.price = includedPrices sold_only records) := by
  refine ⟨rfl, rfl, rfl, rfl, rfl, fun hle => ?_⟩
  show (((records.filter (recordIncluded sold_only)).map recordToItem).take limit).map
      EbaySoldItem.price = _
  rw [List.take_of_length_le (by simpa using hle), List.map_map]
  rfl

theorem C4_stats_scope_amended_witness :
    (find_completed_items "q" 15 true [soldRecord 10] 1).items.map EbaySoldItem.price
      = includedPrices true [soldRecord 10] :=
  (C4_stats_scope_amended "q" 15 true [soldRecord 10] 1).2.2.2.2.2 (by decide)

end AntiqueTracker
